import Mathlib

/-!
Verification of the Luma MCP server's request/response translation layer
(`src/luma_ai_mcp_server/server.py`), via a shallow embedding.

Modelling conventions:
- Python JSON-ish values are the inductive `JSON`.  Numbers carry their
  Python `str()` rendering as text (`JSON.num "150000.0"`), since the
  handlers never do arithmetic on them, only interpolate them into
  f-strings.
- A Python f-string interpolation `f"{x}"` is `JSON.display`; nested
  containers render with `JSON.pyRepr` (Python `repr` layout: dicts as
  `\x7b'k': v\x7d`, strings quoted).
- The HTTP layer `_make_luma_request` is modelled by `make_luma_request` /
  `callResultAt`: the environment supplies a list of `NetResult`s, one per
  network attempt, abstracting the transport at the point where the Python
  code has normalized the response (parsed JSON body + status code, or a
  transport failure).  `NetResult.empty` models a response with no content
  (which the Python code returns as `{}` before the status check).
- A raised-and-caught Python exception is an `Except.error` carrying
  `str(e)`.  Handlers are total functions returning a `HandlerRun`:
  the output text, the number of network attempts performed, the number
  of 2-second sleeps performed, and the JSON bodies sent.
-/

/-- A JSON-ish Python value as the handlers see it. -/
inductive JSON where
  | null
  | bool (b : Bool)
  | num (text : String)
  | str (s : String)
  | arr (elems : List JSON)
  | obj (fields : List (String × JSON))

namespace JSON

mutual

/-- Python `repr` of a value (used when a container is interpolated
into an f-string). -/
def pyRepr : JSON → String
  | .null => "None"
  | .bool true => "True"
  | .bool false => "False"
  | .num t => t
  | .str s => "\x27" ++ s ++ "\x27"
  | .arr xs => "[" ++ pyReprList xs ++ "]"
  | .obj kvs => "\x7b" ++ pyReprFields kvs ++ "\x7d"

def pyReprList : List JSON → String
  | [] => ""
  | [x] => pyRepr x
  | x :: y :: t => pyRepr x ++ ", " ++ pyReprList (y :: t)

def pyReprFields : List (String × JSON) → String
  | [] => ""
  | [(k, v)] => "\x27" ++ k ++ "\x27: " ++ pyRepr v
  | (k, v) :: f :: t => "\x27" ++ k ++ "\x27: " ++ pyRepr v ++ ", " ++ pyReprFields (f :: t)

end

/-- Python `str()` of a value, as an f-string interpolates it: a `str`
renders as its raw characters, everything else as its `repr`. -/
def display : JSON → String
  | .str s => s
  | j => j.pyRepr

/-- Python truthiness (`bool(x)`).  For `num` the text forms of zero are
the falsy ones; the handlers never branch on numeric truthiness. -/
def isTruthy : JSON → Bool
  | .null => false
  | .bool b => b
  | .num t => !(t == "0" || t == "0.0" || t == "-0.0")
  | .str s => !(s == "")
  | .arr xs => !xs.isEmpty
  | .obj kvs => !kvs.isEmpty

/-- Python `x == "s"` for a literal string `"s"` (False on non-strings). -/
def eqStr (j : JSON) (s : String) : Bool :=
  match j with
  | .str t => t == s
  | _ => false

/-- Python `type(x).__name__`. -/
def pyTypeName : JSON → String
  | .null => "NoneType"
  | .bool _ => "bool"
  | .num t => if t.toList.contains '.' then "float" else "int"
  | .str _ => "str"
  | .arr _ => "list"
  | .obj _ => "dict"

/-- Whether the value is a Python dict (`isinstance(x, dict)`). -/
def isObj : JSON → Bool
  | .obj _ => true
  | _ => false

end JSON

/-- Python dict key lookup: first binding wins (a Python dict cannot hold
a duplicate key, so on faithful inputs this is exact). -/
def lookupField (fields : List (String × JSON)) (k : String) : Option JSON :=
  match fields with
  | [] => none
  | (k2, v) :: t => if k2 = k then some v else lookupField t k

/-- The argument mapping a handler receives. -/
abbrev Params := List (String × JSON)

/-- Python `d.get(k, default)`. -/
def pgetD (p : Params) (k : String) (d : JSON) : JSON :=
  match lookupField p k with
  | some v => v
  | none => d

/-- Python `d.get(k)` (default `None`). -/
def pget (p : Params) (k : String) : JSON :=
  pgetD p k .null

/-- Substring search on character lists (Python `pat in s`). -/
def charListContains (pat : List Char) : List Char → Bool
  | [] => pat.isEmpty
  | c :: t => pat.isPrefixOf (c :: t) || charListContains pat t

/-- Python `pat in s` on strings. -/
def strContains (s pat : String) : Bool :=
  charListContains pat.toList s.toList

/-- One upstream network interaction, as seen after the Python code has
normalized the response body. -/
inductive NetResult where
  | empty (status : Nat)
  | response (status : Nat) (body : JSON)
  | netError (msg : String)

/-- Whether this interaction makes `_make_luma_request` raise. -/
def NetResult.isFailure : NetResult → Bool
  | .empty _ => false
  | .response st _ => decide (400 ≤ st)
  | .netError _ => true

/-- The `error_msg` built for an HTTP status `>= 400`
(`f"HTTP error {status_code}"`, plus `f": {json_data}"` when the decoded
body is truthy). -/
def httpErrorMsg (st : Nat) (j : JSON) : String :=
  "HTTP error " ++ toString st ++ (if j.isTruthy then ": " ++ j.display else "")

/-- The outcome of one normalized interaction: an empty body returns `\x7b\x7d`
before the status check; a status `>= 400` raises; a transport failure
raises `Network error: ...`. -/
def netOutcome : NetResult → Except String JSON
  | .empty _ => .ok (.obj [])
  | .response st j => if 400 ≤ st then .error (httpErrorMsg st j) else .ok j
  | .netError m => .error ("Network error: " ++ m)

/-- Credential resolution: `api_key = api_key or os.getenv("LUMA_API_KEY")`,
then `if not api_key: raise`. -/
def resolveKey (ak ek : Option String) : Option String :=
  let k : Option String :=
    match ak with
    | some s => if s = "" then ek else some s
    | none => ek
  match k with
  | some s => if s = "" then none else some s
  | none => none

/-- `_make_luma_request` for the `idx`-th network attempt of a call:
fails with the credential message before any network activity when no
key resolves, otherwise consumes the `idx`-th scripted interaction. -/
def callResultAt (ak ek : Option String) (rs : List NetResult) (idx : Nat) :
    Except String JSON :=
  match resolveKey ak ek with
  | none => .error "LUMA_API_KEY environment variable or --api-key option is required"
  | some _ => netOutcome (rs.getD idx (.netError "no reply"))

/-- The single network attempt made by every handler except
`upscale_generation`. -/
def callResult (ak ek : Option String) (rs : List NetResult) : Except String JSON :=
  callResultAt ak ek rs 0

/-- Number of network attempts a single `_make_luma_request` call
performs: zero when the credential is missing. -/
def callAttempts (ak ek : Option String) : Nat :=
  if (resolveKey ak ek).isSome then 1 else 0

/-- JSON bodies actually sent by a single call (none when the credential
check fails before the network). -/
def callBodies (ak ek : Option String) (body : Option JSON) : List JSON :=
  if (resolveKey ak ek).isSome then body.toList else []

/-- Observable outcome of one handler invocation. -/
structure HandlerRun where
  output : String
  attempts : Nat
  sleeps : Nat
  bodies : List JSON

/-! ## Tool handlers -/

/-- Handler `ping` (server.py lines 183-195). -/
def ping (parameters : Params) (ak ek : Option String) (rs : List NetResult) :
    HandlerRun :=
  match callResult ak ek rs with
  | .error m => ⟨"Error pinging Luma API: " ++ m, callAttempts ak ek, 0, []⟩
  | .ok r =>
      ⟨"Luma API is available and responding" ++
        (if r.isTruthy then ": " ++ r.display else ""), callAttempts ak ek, 0, []⟩

/-- The five optional parameters `create_generation` copies into the body
when present and not `None`. -/
def optionalParams : List String :=
  ["resolution", "duration", "aspect_ratio", "loop", "callback_url"]

/-- `for param in optional_params: if param in parameters and
parameters[param] is not None: data[param] = parameters[param]`. -/
def buildOptional (parameters : Params) : List (String × JSON) :=
  optionalParams.filterMap fun k =>
    match lookupField parameters k with
    | some .null => none
    | some v => some (k, v)
    | none => none

/-- The `AttributeError` message Python raises for `x.get(...)` on a
non-dict `x`. -/
def attrErr (v : JSON) : String :=
  "\x27" ++ v.pyTypeName ++ "\x27 object has no attribute \x27get\x27"

/-- The pre-request keyframe classification (server.py lines 251-269)
raises an `AttributeError` when a present frame value is not a dict;
its appended phrases are only logged, so the raise is its sole
observable effect. -/
def framesCheck (kf : List (String × JSON)) : Except String Unit :=
  match lookupField kf "frame0" with
  | some (.obj _) =>
      (match lookupField kf "frame1" with
       | some (.obj _) => .ok ()
       | some w => .error (attrErr w)
       | none => .ok ())
  | some w => .error (attrErr w)
  | none =>
      match lookupField kf "frame1" with
      | some (.obj _) => .ok ()
      | some w => .error (attrErr w)
      | none => .ok ()

/-- `frameN.get("type")` for the frame stored under `k`, as a total
function (`None` when the frame is absent or not a dict; the handler
only reaches this after `framesCheck` has passed). -/
def frameTypeOf (kf : List (String × JSON)) (k : String) : JSON :=
  match lookupField kf k with
  | some (.obj fs) => pgetD fs "type" .null
  | _ => .null

/-- The keyframe description rendered into the "advanced generation"
output (server.py lines 309-327). -/
def keyframeDescription (kf : List (String × JSON)) : String :=
  let info0 : List String :=
    if (lookupField kf "frame0").isSome then
      (if (frameTypeOf kf "frame0").eqStr "image" then ["starting from an image"]
       else if (frameTypeOf kf "frame0").eqStr "generation" then
         ["extending an existing video"]
       else [])
    else []
  let info1 : List String :=
    if (lookupField kf "frame1").isSome then
      (if (frameTypeOf kf "frame1").eqStr "image" then ["ending with an image"]
       else if (frameTypeOf kf "frame1").eqStr "generation" then
         (if (lookupField kf "frame0").isSome then ["interpolating between videos"]
          else ["reverse extending to an existing video"])
       else [])
    else []
  String.intercalate ", " (info0 ++ info1)

/-- Validation and body assembly for the `keyframes` argument
(server.py lines 240-269): skipped entirely when the argument is absent
or falsy; otherwise it must be a dict holding `frame0` or `frame1` and
is appended to the body; the classification pass may raise on non-dict
frame values.  (Lines 286-296 compute an `asset_info` list that is never
used, so they are not modelled.) -/
def keyframesStep (parameters : Params) (data0 : List (String × JSON)) :
    Except String (List (String × JSON)) :=
  let kfVal := pget parameters "keyframes"
  if (lookupField parameters "keyframes").isSome && kfVal.isTruthy then
    match kfVal with
    | .obj kf =>
        if (lookupField kf "frame0").isSome || (lookupField kf "frame1").isSome then
          match framesCheck kf with
          | .ok _ => .ok (data0 ++ [("keyframes", .obj kf)])
          | .error m => .error m
        else .error "keyframes must contain frame0 or frame1"
    | _ => .error "keyframes must be an object"
  else .ok data0

/-- Handler `create_generation` (server.py lines 198-345). -/
def create_generation (parameters : Params) (ak ek : Option String)
    (rs : List NetResult) : HandlerRun :=
  let prompt := pget parameters "prompt"
  if !prompt.isTruthy then
    ⟨"Error creating generation: prompt parameter is required", 0, 0, []⟩
  else
    let data0 := [("prompt", prompt), ("model", pgetD parameters "model" (.str "ray-2"))]
        ++ buildOptional parameters
    match keyframesStep parameters data0 with
    | .error m => ⟨"Error creating generation: " ++ m, 0, 0, []⟩
    | .ok data =>
      match callResult ak ek rs with
      | .error m =>
          ⟨"Error creating generation: " ++ m, callAttempts ak ek, 0,
            callBodies ak ek (some (.obj data))⟩
      | .ok result =>
        match result with
        | .obj fields =>
          let gid := pgetD fields "id" (.str "Unknown")
          let state := pgetD fields "state" (.str "Processing")
          let gtype := pgetD fields "generation_type" (.str "video")
          let created := pgetD fields "created_at" (.str "Unknown")
          let model := pgetD fields "model" (pgetD parameters "model" (.str "ray-2"))
          let hasKF :=
            match lookupField data "keyframes" with
            | some v => v.isTruthy
            | none => false
          let tail := "State: " ++ state.display ++ "\nCreated at: " ++ created.display
              ++ "\nModel: " ++ model.display ++ "\nPrompt: " ++ prompt.display
          if gtype.eqStr "image" then
            ⟨"Created image generation with ID: " ++ gid.display ++ "\n" ++ tail,
              callAttempts ak ek, 0, callBodies ak ek (some (.obj data))⟩
          else if hasKF then
            let kf :=
              match lookupField data "keyframes" with
              | some (.obj fs) => fs
              | _ => []
            ⟨"Created advanced generation (" ++ keyframeDescription kf
                ++ ") with ID: " ++ gid.display ++ "\n" ++ tail,
              callAttempts ak ek, 0, callBodies ak ek (some (.obj data))⟩
          else
            ⟨"Created text-to-video generation with ID: " ++ gid.display ++ "\n" ++ tail,
              callAttempts ak ek, 0, callBodies ak ek (some (.obj data))⟩
        | other =>
            ⟨"Error: Unexpected response format from Luma API. Got "
                ++ other.pyTypeName ++ " instead of dict.",
              callAttempts ak ek, 0, callBodies ak ek (some (.obj data))⟩

/-- The dict fields of `x.get(k, \x7b\x7d)` coerced to `\x7b\x7d` when not a dict. -/
def dictFieldsOf (fields : List (String × JSON)) (k : String) : List (String × JSON) :=
  match pgetD fields k (.obj []) with
  | .obj fs => fs
  | _ => []

/-- `has_keyframes`: the echoed request carries a non-empty dict under
`keyframes` (server.py lines 381-384 and 493-496). -/
def hasKeyframesIn (request : List (String × JSON)) : Bool :=
  match lookupField request "keyframes" with
  | some (.obj fs) => !fs.isEmpty
  | _ => false

/-- Handler `get_generation` (server.py lines 348-422). -/
def get_generation (parameters : Params) (ak ek : Option String)
    (rs : List NetResult) : HandlerRun :=
  let gid := pget parameters "generation_id"
  if !gid.isTruthy then
    ⟨"Error getting generation " ++ gid.display
        ++ ": generation_id parameter is required", 0, 0, []⟩
  else
    match callResult ak ek rs with
    | .error m =>
        ⟨"Error getting generation " ++ gid.display ++ ": " ++ m,
          callAttempts ak ek, 0, []⟩
    | .ok result =>
      match result with
      | .obj fields =>
        let resultId := pgetD fields "id" gid
        let state := pgetD fields "state" (.str "Unknown")
        let created := pgetD fields "created_at" (.str "Unknown")
        let gtype := pgetD fields "generation_type" (.str "video")
        let model := pgetD fields "model" (.str "Unknown")
        let failure := pgetD fields "failure_reason" (.str "")
        let stateInfo := "State: " ++ state.display ++
          (if state.eqStr "failed" && failure.isTruthy then
            " (Reason: " ++ failure.display ++ ")" else "")
        let request := dictFieldsOf fields "request"
        let prompt := pgetD request "prompt" (.str "Unknown")
        let typeDisplay :=
          if gtype.eqStr "image" then "Image"
          else if hasKeyframesIn request then "Advanced" else "Text-to-video"
        let assets := dictFieldsOf fields "assets"
        let assetLines : List String :=
          if gtype.eqStr "image" then
            (match lookupField assets "image" with
             | some v => ["Image URL: " ++ v.display]
             | none => [])
          else
            (match lookupField assets "video" with
             | some v => ["Video URL: " ++ v.display]
             | none => []) ++
            (match lookupField assets "progress_video" with
             | some v => ["Progress video: " ++ v.display]
             | none => []) ++
            (match lookupField assets "image" with
             | some v => ["Thumbnail: " ++ v.display]
             | none => [])
        let assetsInfo :=
          if assetLines.isEmpty then "No assets available yet"
          else String.intercalate "\n" assetLines
        ⟨String.intercalate "\n"
            ["Generation ID: " ++ resultId.display,
             "Type: " ++ typeDisplay,
             stateInfo,
             "Created at: " ++ created.display,
             "Model: " ++ model.display,
             "Prompt: " ++ prompt.display,
             assetsInfo],
          callAttempts ak ek, 0, []⟩
      | other =>
          ⟨"Error: Unexpected response format from Luma API. Got "
              ++ other.pyTypeName ++ " instead of dict.",
            callAttempts ak ek, 0, []⟩

/-- Per-entry summary block of `list_generations` (server.py lines
484-523), for one dict entry. -/
def renderGenEntry (g : List (String × JSON)) : String :=
  let gid := pgetD g "id" (.str "Unknown ID")
  let state := pgetD g "state" (.str "Unknown state")
  let created := pgetD g "created_at" (.str "Unknown date")
  let gtype := pgetD g "generation_type" (.str "video")
  let request := dictFieldsOf g "request"
  let typeDisplay :=
    if gtype.eqStr "image" then "Image"
    else if hasKeyframesIn request then "Advanced" else "Text-to-video"
  let prompt := pgetD request "prompt" (.str "Unknown prompt")
  let assets := dictFieldsOf g "assets"
  let url :=
    if gtype.eqStr "image" then
      "Image URL: " ++ (pgetD assets "image" (.str "Not available yet")).display
    else
      "Video URL: " ++ (pgetD assets "video" (.str "Not available yet")).display
  "ID: " ++ gid.display ++ "\n  Type: " ++ typeDisplay ++ "\n  State: "
    ++ state.display ++ "\n  Created at: " ++ created.display ++ "\n  Prompt: "
    ++ prompt.display ++ "\n  " ++ url ++ "\n"

/-- The per-entry loop body: non-dict entries are skipped with a logged
warning (server.py lines 479-482). -/
def renderEntryIfObj : JSON → Option String
  | .obj g => some (renderGenEntry g)
  | _ => none

/-- The alternate-key probe of `list_generations` (server.py lines
453-456): the first of `data`/`results`/`items` holding a list wins. -/
def probeAltKeys (fields : List (String × JSON)) : List JSON :=
  match lookupField fields "data" with
  | some (.arr xs) => xs
  | _ =>
    match lookupField fields "results" with
    | some (.arr xs) => xs
    | _ =>
      match lookupField fields "items" with
      | some (.arr xs) => xs
      | _ => []

/-- Shape dispatch of `list_generations` (server.py lines 440-470):
yields the entry list and the pagination line (known only for the
wrapped shape), or the verbatim non-list reply message.  An empty probe
result is indistinguishable from a failed probe in the source (`if not
generations_list` follows the loop), and both produce the same message. -/
def extractGens (result : JSON) : Except String (List JSON × Option String) :=
  match result with
  | .obj fields =>
    (match lookupField fields "generations" with
     | some (.arr gl) =>
        let hasMore := pgetD fields "has_more" (.bool false)
        let count := pgetD fields "count" (.num (toString gl.length))
        .ok (gl, some ("Showing " ++ toString gl.length ++ " of " ++ count.display
          ++ " generations" ++ (if hasMore.isTruthy then " (more available)" else "")))
     | _ =>
        if (lookupField fields "id").isSome && (lookupField fields "state").isSome then
          .ok ([result], none)
        else
          match probeAltKeys fields with
          | [] => .error ("Response format from Luma API doesn\x27t contain generations: "
              ++ result.display)
          | x :: t => .ok (x :: t, none))
  | .arr gl => .ok (gl, none)
  | other => .error ("Error: Unexpected response format from Luma API. Got "
      ++ other.pyTypeName ++ " instead of object with generations.")

/-- Handler `list_generations` (server.py lines 425-528).  The `limit`
and `offset` arguments only feed the query string, which the reply
oracle already accounts for. -/
def list_generations (parameters : Params) (ak ek : Option String)
    (rs : List NetResult) : HandlerRun :=
  match callResult ak ek rs with
  | .error m => ⟨"Error listing generations: " ++ m, callAttempts ak ek, 0, []⟩
  | .ok result =>
    if !result.isTruthy then
      ⟨"No generations found", callAttempts ak ek, 0, []⟩
    else
      match extractGens result with
      | .error m => ⟨m, callAttempts ak ek, 0, []⟩
      | .ok (gl, pagination) =>
        if gl.isEmpty then ⟨"No generations found", callAttempts ak ek, 0, []⟩
        else
          ⟨String.intercalate "\n"
              (("Generations:" :: pagination.toList) ++ gl.filterMap renderEntryIfObj),
            callAttempts ak ek, 0, []⟩

/-- Handler `delete_generation` (server.py lines 531-542). -/
def delete_generation (parameters : Params) (ak ek : Option String)
    (rs : List NetResult) : HandlerRun :=
  let gid := pget parameters "generation_id"
  if !gid.isTruthy then
    ⟨"Error deleting generation " ++ gid.display
        ++ ": generation_id parameter is required", 0, 0, []⟩
  else
    match callResult ak ek rs with
    | .error m =>
        ⟨"Error deleting generation " ++ gid.display ++ ": " ++ m,
          callAttempts ak ek, 0, []⟩
    | .ok _ =>
        ⟨"Generation " ++ gid.display ++ " deleted successfully",
          callAttempts ak ek, 0, []⟩

/-- Leftmost occurrence search: the characters following the first
occurrence of `pat`, if any. -/
def dropAfterFirst (pat : List Char) : List Char → Option (List Char)
  | [] => if pat.isEmpty then some [] else none
  | c :: t =>
    if pat.isPrefixOf (c :: t) then some ((c :: t).drop pat.length)
    else dropAfterFirst pat t

/-- `re.search(r"\x27detail\x27: \x27([^\x27]*)\x27", error_msg)` and its captured
group (server.py lines 651-652): the text between the quote opening
after the first `\x27detail\x27: ` and the next quote, which must exist. -/
def extractDetail (msg : String) : Option String :=
  match dropAfterFirst ("\x27detail\x27: \x27".toList) msg.toList with
  | none => none
  | some rest =>
    let detail := rest.takeWhile (fun c => c ≠ '\x27')
    match (rest.drop detail.length).head? with
    | some _ => some (String.mk detail)
    | none => none

/-- The `except` tail of `upscale_generation` (server.py lines 637-673):
string-matches the exception text to pick the operator-facing message. -/
def upscaleErrorText (parameters : Params) (msg : String) : String :=
  let gidD := (pget parameters "generation_id").display
  if strContains msg "same resolution as the original" then
    "Error upscaling generation " ++ gidD ++ ": The requested resolution ("
      ++ (pget parameters "resolution").display
      ++ ") is the same as the original. Please choose a higher resolution."
  else if strContains msg "HTTP error 400" then
    let detail :=
      match extractDetail msg with
      | some d => d
      | none => "Invalid request"
    "Error upscaling generation " ++ gidD ++ ": " ++ detail
      ++ ". Common issues include:\n- The generation is not in a completed state\n- The requested resolution is not higher than the original\n- The generation was already upscaled"
  else if strContains msg "HTTP error 500" then
    "Error upscaling generation " ++ gidD
      ++ ": Server Error. This could be due to:\n- The generation not being in a completed state\n- The generation already being upscaled\n- The Luma API experiencing temporary issues\n\nPlease check the generation status and try again later."
  else
    "Error upscaling generation " ++ gidD ++ ": " ++ msg

/-- The rewritten error raised when the upstream text mentions "same
resolution as the original" (server.py lines 584-588). -/
def sameResolutionRewrite (resD : String) : String :=
  "Cannot upscale to " ++ resD
    ++ " because the original generation is already at this resolution. Please choose a higher resolution."

/-- The retry loop of `upscale_generation` (server.py lines 570-596):
an error whose text mentions "same resolution as the original" is
rewritten and re-raised without retrying; an "HTTP error 500" is retried
(after a 2-second sleep) while retries remain; anything else re-raises.
Returns the outcome, the attempts made, and the sleeps performed, with
`fuel = max_retries - retry_count` (so the `retry_count < max_retries`
guard is `fuel > 0`; with no fuel a 500 re-raises like any other error). -/
def upscaleLoop (ak ek : Option String) (rs : List NetResult) (resD : String) :
    Nat → Nat → Except String JSON × Nat × Nat
  | idx, 0 =>
    (match callResultAt ak ek rs idx with
     | .ok j => (.ok j, callAttempts ak ek, 0)
     | .error msg =>
       if strContains msg "same resolution as the original" then
         (.error (sameResolutionRewrite resD), callAttempts ak ek, 0)
       else (.error msg, callAttempts ak ek, 0))
  | idx, f + 1 =>
    (match callResultAt ak ek rs idx with
     | .ok j => (.ok j, callAttempts ak ek, 0)
     | .error msg =>
       if strContains msg "same resolution as the original" then
         (.error (sameResolutionRewrite resD), callAttempts ak ek, 0)
       else if strContains msg "HTTP error 500" then
         let r := upscaleLoop ak ek rs resD (idx + 1) f
         (r.1, callAttempts ak ek + r.2.1, 1 + r.2.2)
       else (.error msg, callAttempts ak ek, 0))

/-- Success rendering of `upscale_generation` (server.py lines 598-636). -/
def upscaleRender (parameters : Params) (result : JSON) : String :=
  let gid := pget parameters "generation_id"
  let resolution := pget parameters "resolution"
  match result with
  | .obj fields =>
    let resultId := pgetD fields "id" gid
    let state := pgetD fields "state" (.str "Processing")
    let created := pgetD fields "created_at" (.str "Unknown")
    let model := pgetD fields "model" (.str "Unknown")
    let upres := pgetD fields "resolution"
        (if resolution.isTruthy then resolution else .str "Unknown")
    let failure := pgetD fields "failure_reason" (.str "")
    let stateInfo := state.display ++
      (if state.eqStr "failed" && failure.isTruthy then
        " (Reason: " ++ failure.display ++ ")" else "")
    let assets := dictFieldsOf fields "assets"
    let assetLines : List String :=
      (match lookupField assets "video" with
       | some v => ["Video URL: " ++ v.display]
       | none => []) ++
      (match lookupField assets "progress_video" with
       | some v => ["Progress video: " ++ v.display]
       | none => []) ++
      (match lookupField assets "image" with
       | some v => ["Thumbnail: " ++ v.display]
       | none => [])
    String.intercalate "\n"
      (["Upscale initiated for generation " ++ resultId.display,
        "Target resolution: " ++ upres.display,
        "Status: " ++ stateInfo,
        "Created at: " ++ created.display,
        "Model: " ++ model.display] ++
       (if assetLines.isEmpty then [] else ["", "Assets:"] ++ assetLines))
  | other =>
      "Upscale initiated for generation " ++ gid.display ++ ". Response: "
        ++ other.display

/-- Handler `upscale_generation` (server.py lines 545-673).  The
validation raises flow through the same `except` tail as every other
failure, so they are routed through `upscaleErrorText` too. -/
def upscale_generation (parameters : Params) (ak ek : Option String)
    (rs : List NetResult) : HandlerRun :=
  let gid := pget parameters "generation_id"
  if !gid.isTruthy then
    ⟨upscaleErrorText parameters "generation_id parameter is required", 0, 0, []⟩
  else
    let resolution := pget parameters "resolution"
    if !resolution.isTruthy then
      ⟨upscaleErrorText parameters "resolution parameter is required for upscaling",
        0, 0, []⟩
    else if !(["540p", "720p", "1080p", "4k"].any fun v => resolution.eqStr v) then
      ⟨upscaleErrorText parameters ("Invalid resolution: " ++ resolution.display
          ++ ". Must be one of 540p, 720p, 1080p, 4k"), 0, 0, []⟩
    else
      let body : JSON := .obj [("resolution", resolution)]
      let r := upscaleLoop ak ek rs resolution.display 0 2
      match r.1 with
      | .ok result =>
          ⟨upscaleRender parameters result, r.2.1, r.2.2,
            List.replicate r.2.1 body⟩
      | .error msg =>
          ⟨upscaleErrorText parameters msg, r.2.1, r.2.2,
            List.replicate r.2.1 body⟩

/-- Handler `add_audio` (server.py lines 676-754). -/
def add_audio (parameters : Params) (ak ek : Option String)
    (rs : List NetResult) : HandlerRun :=
  let gid := pget parameters "generation_id"
  if !gid.isTruthy then
    ⟨"Error adding audio to generation " ++ gid.display
        ++ ": generation_id parameter is required", 0, 0, []⟩
  else
    let prompt := pget parameters "prompt"
    if !prompt.isTruthy then
      ⟨"Error adding audio to generation " ++ gid.display
          ++ ": prompt parameter is required for audio generation", 0, 0, []⟩
    else
      let request_data : List (String × JSON) :=
        [("prompt", prompt)] ++
        (if (lookupField parameters "negative_prompt").isSome
            && (pget parameters "negative_prompt").isTruthy then
          [("negative_prompt", pget parameters "negative_prompt")] else []) ++
        (if (lookupField parameters "callback_url").isSome
            && (pget parameters "callback_url").isTruthy then
          [("callback_url", pget parameters "callback_url")] else [])
      match callResult ak ek rs with
      | .error m =>
          ⟨"Error adding audio to generation " ++ gid.display ++ ": " ++ m,
            callAttempts ak ek, 0, callBodies ak ek (some (.obj request_data))⟩
      | .ok result =>
        match result with
        | .obj fields =>
          let resultId := pgetD fields "id" gid
          let state := pgetD fields "state" (.str "Processing")
          let created := pgetD fields "created_at" (.str "Unknown")
          let model := pgetD fields "model" (.str "Unknown")
          let failure := pgetD fields "failure_reason" (.str "")
          let stateInfo := state.display ++
            (if state.eqStr "failed" && failure.isTruthy then
              " (Reason: " ++ failure.display ++ ")" else "")
          let assets := dictFieldsOf fields "assets"
          let assetLines : List String :=
            (match lookupField assets "video" with
             | some v => ["Video URL: " ++ v.display]
             | none => []) ++
            (match lookupField assets "progress_video" with
             | some v => ["Progress video: " ++ v.display]
             | none => []) ++
            (match lookupField assets "image" with
             | some v => ["Thumbnail: " ++ v.display]
             | none => []) ++
            (match lookupField assets "audio" with
             | some v => ["Audio URL: " ++ v.display]
             | none => [])
          ⟨String.intercalate "\n"
              (["Audio generation initiated for generation " ++ resultId.display,
                "Status: " ++ stateInfo,
                "Created at: " ++ created.display,
                "Model: " ++ model.display,
                "Prompt: " ++ prompt.display] ++
               (match lookupField request_data "negative_prompt" with
                | some v => ["Negative prompt: " ++ v.display]
                | none => []) ++
               (if assetLines.isEmpty then [] else ["", "Assets:"] ++ assetLines)),
            callAttempts ak ek, 0, callBodies ak ek (some (.obj request_data))⟩
        | other =>
            ⟨"Audio generation initiated for generation " ++ gid.display
                ++ ". Response: " ++ other.display,
              callAttempts ak ek, 0, callBodies ak ek (some (.obj request_data))⟩

/-- Handler `generate_image` (server.py lines 757-817). -/
def generate_image (parameters : Params) (ak ek : Option String)
    (rs : List NetResult) : HandlerRun :=
  let prompt := pget parameters "prompt"
  if !prompt.isTruthy then
    ⟨"Error generating image for prompt \x27" ++ prompt.display
        ++ "\x27: prompt parameter is required", 0, 0, []⟩
  else
    let model0 := pgetD parameters "model" (.str "photon-1")
    let model :=
      if model0.eqStr "photon-1" || model0.eqStr "photon-flash-1" then model0
      else .str "photon-1"
    let data : List (String × JSON) := [("prompt", prompt), ("model", model)]
    match callResult ak ek rs with
    | .error m =>
        ⟨"Error generating image for prompt \x27" ++ prompt.display ++ "\x27: " ++ m,
          callAttempts ak ek, 0, callBodies ak ek (some (.obj data))⟩
    | .ok result =>
      match result with
      | .obj fields =>
        let gid := pgetD fields "id" (.str "Unknown")
        let state := pgetD fields "state" (.str "Processing")
        let created := pgetD fields "created_at" (.str "Unknown")
        let rmodel := pgetD fields "model" (pgetD parameters "model" (.str "ray-2"))
        let failure := pgetD fields "failure_reason" (.str "")
        let stateInfo := state.display ++
          (if state.eqStr "failed" && failure.isTruthy then
            " (Reason: " ++ failure.display ++ ")" else "")
        let imageUrl :=
          match pgetD fields "assets" (.obj []) with
          | .obj afs =>
            (match lookupField afs "image" with
             | some v => v.display
             | none => "Image will be available when processing completes")
          | _ => "Image will be available when processing completes"
        ⟨"Image generation " ++ stateInfo ++ "\nID: " ++ gid.display
            ++ "\nCreated at: " ++ created.display ++ "\nModel: " ++ rmodel.display
            ++ "\nPrompt: " ++ prompt.display ++ "\nImage URL: " ++ imageUrl,
          callAttempts ak ek, 0, callBodies ak ek (some (.obj data))⟩
      | other =>
          ⟨"Image generation completed for prompt: " ++ prompt.display
              ++ ". Response: " ++ other.display,
            callAttempts ak ek, 0, callBodies ak ek (some (.obj data))⟩

/-- Handler `get_credits` (server.py lines 820-845). -/
def get_credits (parameters : Params) (ak ek : Option String)
    (rs : List NetResult) : HandlerRun :=
  match callResult ak ek rs with
  | .error m =>
      ⟨"Error retrieving credit information: " ++ m, callAttempts ak ek, 0, []⟩
  | .ok result =>
    match result with
    | .obj fields =>
      if (lookupField fields "credit_balance").isSome then
        ⟨"Credit Information:\nAvailable Credits: "
            ++ (pgetD fields "credit_balance" (.str "Unknown")).display,
          callAttempts ak ek, 0, []⟩
      else
        ⟨"Credit Information:\nAvailable Credits: "
            ++ (pgetD fields "credits_available" (.str "Unknown")).display
            ++ "\nUsed Credits: "
            ++ (pgetD fields "credits_used" (.str "Unknown")).display
            ++ "\nTotal Credits: "
            ++ (pgetD fields "credits_total" (.str "Unknown")).display,
          callAttempts ak ek, 0, []⟩
    | other =>
        ⟨"Credit Information: " ++ other.display, callAttempts ak ek, 0, []⟩

/-- One line of camera-motion output.  The two per-item renderings in the
source (list branch, lines 862-873; probed-object branch, lines 882-890)
compute the same string for every possible item, so one function serves
both. -/
def motionLine (m : JSON) : String :=
  match m with
  | .str s => "- " ++ s
  | .obj fs =>
    (match lookupField fs "name" with
     | some v => "- " ++ v.display
     | none =>
       match lookupField fs "id" with
       | some v => "- " ++ v.display
       | none => "- " ++ (JSON.obj fs).display)
  | other => "- " ++ other.display

/-- The key probe of `get_camera_motions` (server.py line 877): the
first of `motions`/`camera_motions`/`data`/`items`/`results` holding a
list wins, even an empty one. -/
def probeMotionKeys (fields : List (String × JSON)) : Option (List JSON) :=
  match lookupField fields "motions" with
  | some (.arr xs) => some xs
  | _ =>
    match lookupField fields "camera_motions" with
    | some (.arr xs) => some xs
    | _ =>
      match lookupField fields "data" with
      | some (.arr xs) => some xs
      | _ =>
        match lookupField fields "items" with
        | some (.arr xs) => some xs
        | _ =>
          match lookupField fields "results" with
          | some (.arr xs) => some xs
          | _ => none

/-- Python `f"\x7blist(result.keys())\x7d"`: the repr of the list of keys. -/
def pyKeysRepr (fields : List (String × JSON)) : String :=
  "[" ++ String.intercalate ", "
      (fields.map fun kv => "\x27" ++ kv.1 ++ "\x27") ++ "]"

/-- Handler `get_camera_motions` (server.py lines 848-900). -/
def get_camera_motions (parameters : Params) (ak ek : Option String)
    (rs : List NetResult) : HandlerRun :=
  match callResult ak ek rs with
  | .error m =>
      ⟨"Error retrieving camera motions: " ++ m, callAttempts ak ek, 0, []⟩
  | .ok result =>
    if !result.isTruthy then
      ⟨"No camera motions available", callAttempts ak ek, 0, []⟩
    else
      match result with
      | .arr ms =>
          ⟨String.intercalate "\n"
              ("Available camera motions:" :: ms.map motionLine),
            callAttempts ak ek, 0, []⟩
      | .obj fields =>
        (match probeMotionKeys fields with
         | some ms =>
            ⟨String.intercalate "\n"
                ("Available camera motions:" :: ms.map motionLine),
              callAttempts ak ek, 0, []⟩
         | none =>
            ⟨"Unexpected response format. Response contained: " ++ pyKeysRepr fields,
              callAttempts ak ek, 0, []⟩)
      | other =>
          ⟨"Unexpected response format: " ++ other.display,
            callAttempts ak ek, 0, []⟩

/-! ## Helper lemmas -/

/-- A string that begins with the phrase "Error". -/
def errorPrefixed (s : String) : Prop := ∃ t, s = "Error" ++ t

theorem str_append_assoc (a b c : String) : a ++ b ++ c = a ++ (b ++ c) := by
  rcases a with ⟨la⟩
  rcases b with ⟨lb⟩
  rcases c with ⟨lc⟩
  show String.mk (la ++ lb ++ lc) = String.mk (la ++ (lb ++ lc))
  rw [List.append_assoc]

theorem errorPrefixed_append {s : String} (h : errorPrefixed s) (m : String) :
    errorPrefixed (s ++ m) := by
  obtain ⟨t, ht⟩ := h
  exact ⟨t ++ m, by rw [ht, str_append_assoc]⟩

theorem isPrefixOf_append_self (l t : List Char) : l.isPrefixOf (l ++ t) = true := by
  induction l with
  | nil => simp [List.isPrefixOf]
  | cons c cs ih => simp [List.isPrefixOf, ih]

theorem charListContains_prefix (p t : List Char) :
    charListContains p (p ++ t) = true := by
  cases p with
  | nil => cases t <;> simp [charListContains, List.isPrefixOf]
  | cons c cs =>
      show charListContains (c :: cs) (c :: (cs ++ t)) = true
      simp [charListContains, isPrefixOf_append_self]

theorem strContains_prefix (a b : String) : strContains (a ++ b) a = true := by
  rcases a with ⟨la⟩
  rcases b with ⟨lb⟩
  show charListContains la (la ++ lb) = true
  exact charListContains_prefix la lb

theorem getD_mem_or_default {α : Type} (l : List α) (i : Nat) (d : α) :
    l.getD i d ∈ l ∨ l.getD i d = d := by
  induction l generalizing i with
  | nil => right; cases i <;> rfl
  | cons a t ih =>
    cases i with
    | zero => left; simp [List.getD]
    | succ j =>
      rcases ih j with h | h
      · left; simp [List.getD] at h ⊢; right; exact h
      · right; simpa [List.getD] using h

theorem netOutcome_isFailure {r : NetResult} (h : r.isFailure = true) :
    ∃ m, netOutcome r = .error m := by
  cases r with
  | empty st => simp [NetResult.isFailure] at h
  | response st j =>
      simp only [NetResult.isFailure, decide_eq_true_eq] at h
      exact ⟨httpErrorMsg st j, by simp [netOutcome, h]⟩
  | netError m => exact ⟨_, rfl⟩

theorem callResultAt_isFailure (ak ek : Option String) (rs : List NetResult)
    (idx : Nat) (h : ∀ r ∈ rs, r.isFailure = true) :
    ∃ m, callResultAt ak ek rs idx = .error m := by
  unfold callResultAt
  cases hk : resolveKey ak ek with
  | none => exact ⟨_, rfl⟩
  | some k =>
    rcases getD_mem_or_default rs idx (.netError "no reply") with hmem | hdef
    · exact netOutcome_isFailure (h _ hmem)
    · rw [hdef]; exact ⟨_, rfl⟩

theorem ping_recovers (parameters : Params) (ak ek : Option String)
    (rs : List NetResult) (h : ∀ idx, ∃ m, callResultAt ak ek rs idx = .error m) :
    errorPrefixed (ping parameters ak ek rs).output := by
  obtain ⟨m, hm⟩ := h 0
  unfold ping callResult
  rw [hm]
  exact errorPrefixed_append ⟨" pinging Luma API: ", rfl⟩ m

theorem create_generation_recovers (parameters : Params) (ak ek : Option String)
    (rs : List NetResult) (h : ∀ idx, ∃ m, callResultAt ak ek rs idx = .error m) :
    errorPrefixed (create_generation parameters ak ek rs).output := by
  obtain ⟨m, hm⟩ := h 0
  unfold create_generation callResult
  rw [hm]
  dsimp only []
  split
  · exact ⟨" creating generation: prompt parameter is required", rfl⟩
  · split
    · exact errorPrefixed_append ⟨" creating generation: ", rfl⟩ _
    · exact errorPrefixed_append ⟨" creating generation: ", rfl⟩ m

theorem get_generation_recovers (parameters : Params) (ak ek : Option String)
    (rs : List NetResult) (h : ∀ idx, ∃ m, callResultAt ak ek rs idx = .error m) :
    errorPrefixed (get_generation parameters ak ek rs).output := by
  obtain ⟨m, hm⟩ := h 0
  unfold get_generation callResult
  rw [hm]
  dsimp only []
  split
  · exact errorPrefixed_append (errorPrefixed_append ⟨" getting generation ", rfl⟩ _) _
  · exact errorPrefixed_append (errorPrefixed_append
      (errorPrefixed_append ⟨" getting generation ", rfl⟩ _) _) m

theorem list_generations_recovers (parameters : Params) (ak ek : Option String)
    (rs : List NetResult) (h : ∀ idx, ∃ m, callResultAt ak ek rs idx = .error m) :
    errorPrefixed (list_generations parameters ak ek rs).output := by
  obtain ⟨m, hm⟩ := h 0
  unfold list_generations callResult
  rw [hm]
  exact errorPrefixed_append ⟨" listing generations: ", rfl⟩ m

theorem delete_generation_recovers (parameters : Params) (ak ek : Option String)
    (rs : List NetResult) (h : ∀ idx, ∃ m, callResultAt ak ek rs idx = .error m) :
    errorPrefixed (delete_generation parameters ak ek rs).output := by
  obtain ⟨m, hm⟩ := h 0
  unfold delete_generation callResult
  rw [hm]
  dsimp only []
  split
  · exact errorPrefixed_append (errorPrefixed_append ⟨" deleting generation ", rfl⟩ _) _
  · exact errorPrefixed_append (errorPrefixed_append
      (errorPrefixed_append ⟨" deleting generation ", rfl⟩ _) _) m

theorem add_audio_recovers (parameters : Params) (ak ek : Option String)
    (rs : List NetResult) (h : ∀ idx, ∃ m, callResultAt ak ek rs idx = .error m) :
    errorPrefixed (add_audio parameters ak ek rs).output := by
  obtain ⟨m, hm⟩ := h 0
  unfold add_audio callResult
  rw [hm]
  dsimp only []
  split
  · exact errorPrefixed_append (errorPrefixed_append ⟨" adding audio to generation ", rfl⟩ _) _
  · split
    · exact errorPrefixed_append (errorPrefixed_append
        ⟨" adding audio to generation ", rfl⟩ _) _
    · exact errorPrefixed_append (errorPrefixed_append
        (errorPrefixed_append ⟨" adding audio to generation ", rfl⟩ _) _) m

theorem generate_image_recovers (parameters : Params) (ak ek : Option String)
    (rs : List NetResult) (h : ∀ idx, ∃ m, callResultAt ak ek rs idx = .error m) :
    errorPrefixed (generate_image parameters ak ek rs).output := by
  obtain ⟨m, hm⟩ := h 0
  unfold generate_image callResult
  rw [hm]
  dsimp only []
  split
  · exact errorPrefixed_append (errorPrefixed_append
      ⟨" generating image for prompt \x27", rfl⟩ _) _
  · exact errorPrefixed_append (errorPrefixed_append
      (errorPrefixed_append ⟨" generating image for prompt \x27", rfl⟩ _) _) m

theorem get_credits_recovers (parameters : Params) (ak ek : Option String)
    (rs : List NetResult) (h : ∀ idx, ∃ m, callResultAt ak ek rs idx = .error m) :
    errorPrefixed (get_credits parameters ak ek rs).output := by
  obtain ⟨m, hm⟩ := h 0
  unfold get_credits callResult
  rw [hm]
  exact errorPrefixed_append ⟨" retrieving credit information: ", rfl⟩ m

theorem get_camera_motions_recovers (parameters : Params) (ak ek : Option String)
    (rs : List NetResult) (h : ∀ idx, ∃ m, callResultAt ak ek rs idx = .error m) :
    errorPrefixed (get_camera_motions parameters ak ek rs).output := by
  obtain ⟨m, hm⟩ := h 0
  unfold get_camera_motions callResult
  rw [hm]
  exact errorPrefixed_append ⟨" retrieving camera motions: ", rfl⟩ m

theorem upscaleErrorText_prefixed (parameters : Params) (msg : String) :
    errorPrefixed (upscaleErrorText parameters msg) := by
  unfold upscaleErrorText
  dsimp only []
  split
  · exact errorPrefixed_append (errorPrefixed_append (errorPrefixed_append
      (errorPrefixed_append ⟨" upscaling generation ", rfl⟩ _) _) _) _
  · split
    · exact errorPrefixed_append (errorPrefixed_append (errorPrefixed_append
        (errorPrefixed_append ⟨" upscaling generation ", rfl⟩ _) _) _) _
    · split
      · exact errorPrefixed_append (errorPrefixed_append
          ⟨" upscaling generation ", rfl⟩ _) _
      · exact errorPrefixed_append (errorPrefixed_append (errorPrefixed_append
          ⟨" upscaling generation ", rfl⟩ _) _) msg

theorem upscaleLoop_isFailure (ak ek : Option String) (rs : List NetResult)
    (resD : String) (h : ∀ idx, ∃ m, callResultAt ak ek rs idx = .error m) :
    ∀ fuel idx, ∃ m, (upscaleLoop ak ek rs resD idx fuel).1 = .error m := by
  intro fuel
  induction fuel with
  | zero =>
    intro idx
    obtain ⟨m, hm⟩ := h idx
    unfold upscaleLoop
    rw [hm]
    dsimp only []
    split
    · exact ⟨_, rfl⟩
    · exact ⟨_, rfl⟩
  | succ f ih =>
    intro idx
    obtain ⟨m, hm⟩ := h idx
    obtain ⟨m2, hm2⟩ := ih (idx + 1)
    unfold upscaleLoop
    rw [hm]
    dsimp only []
    split
    · exact ⟨_, rfl⟩
    · split
      · exact ⟨m2, hm2⟩
      · exact ⟨_, rfl⟩

theorem upscale_generation_recovers (parameters : Params) (ak ek : Option String)
    (rs : List NetResult) (h : ∀ idx, ∃ m, callResultAt ak ek rs idx = .error m) :
    errorPrefixed (upscale_generation parameters ak ek rs).output := by
  obtain ⟨m, hm⟩ := upscaleLoop_isFailure ak ek rs
    (pget parameters "resolution").display h 2 0
  unfold upscale_generation
  dsimp only []
  split
  · exact upscaleErrorText_prefixed parameters "generation_id parameter is required"
  · split
    · exact upscaleErrorText_prefixed parameters
        "resolution parameter is required for upscaling"
    · split
      · exact upscaleErrorText_prefixed parameters _
      · rw [hm]
        exact upscaleErrorText_prefixed parameters m

theorem callsFail_of_failures_or_noKey (ak ek : Option String) (rs : List NetResult)
    (h : (∀ r ∈ rs, r.isFailure = true) ∨ resolveKey ak ek = none) :
    ∀ idx, ∃ m, callResultAt ak ek rs idx = .error m := by
  intro idx
  rcases h with h | h
  · exact callResultAt_isFailure ak ek rs idx h
  · refine ⟨"LUMA_API_KEY environment variable or --api-key option is required", ?_⟩
    unfold callResultAt
    rw [h]

theorem errorPrefixed_head (s : String) (h : errorPrefixed s) :
    s.toList.take 5 = "Error".toList := by
  obtain ⟨t, ht⟩ := h
  rcases t with ⟨lt⟩
  rw [ht]
  show ("Error".data ++ lt).take 5 = "Error".data
  have h5 : ("Error".data ++ lt).take ("Error".data.length) = "Error".data :=
    List.take_left _ _
  simpa using h5

/-- The common shape of a tool handler in this embedding. -/
abbrev Handler :=
  Params → Option String → Option String → List NetResult → HandlerRun

/-- All ten tool handlers. -/
def handlerTable : List Handler :=
  [ping, create_generation, get_generation, list_generations, delete_generation,
   upscale_generation, add_audio, generate_image, get_credits, get_camera_motions]

/-- C1 (amended): for every tool handler, whenever every network
interaction the run would perform fails (transport error, or HTTP
status at least 400) or the credential cannot be resolved, the handler
returns a string beginning with "Error"; being total Lean functions on
these inputs, the embedded handlers return that string rather than
propagating any error value.  (As stated over malformed-but-successful
replies the original claim is false: see the counterexample.) -/
theorem handlers_recover_all_failures :
    ∀ H ∈ handlerTable, ∀ (parameters : Params) (ak ek : Option String)
      (rs : List NetResult),
      ((∀ r ∈ rs, r.isFailure = true) ∨ resolveKey ak ek = none) →
      errorPrefixed (H parameters ak ek rs).output := by
  intro H hH parameters ak ek rs h
  have hc := callsFail_of_failures_or_noKey ak ek rs h
  simp only [handlerTable, List.mem_cons, List.not_mem_nil, or_false] at hH
  rcases hH with rfl | rfl | rfl | rfl | rfl | rfl | rfl | rfl | rfl | rfl
  · exact ping_recovers parameters ak ek rs hc
  · exact create_generation_recovers parameters ak ek rs hc
  · exact get_generation_recovers parameters ak ek rs hc
  · exact list_generations_recovers parameters ak ek rs hc
  · exact delete_generation_recovers parameters ak ek rs hc
  · exact upscale_generation_recovers parameters ak ek rs hc
  · exact add_audio_recovers parameters ak ek rs hc
  · exact generate_image_recovers parameters ak ek rs hc
  · exact get_credits_recovers parameters ak ek rs hc
  · exact get_camera_motions_recovers parameters ak ek rs hc

/-- Witness for C1 (amended): `create_generation` with a missing prompt
and a failing network renders an "Error"-prefixed string. -/
theorem handlers_recover_all_failures_witness :
    errorPrefixed (create_generation [] none none [.netError "boom"]).output :=
  handlers_recover_all_failures create_generation
    (by simp [handlerTable]) [] none none [.netError "boom"]
    (Or.inl (by intro r hr; simp only [List.mem_singleton] at hr; subst hr; rfl))

/-- C1 counterexample: on a well-formed 200 reply whose dict carries none
of the recognized list keys, `list_generations` returns its
"Response format ..." message, which does not begin with "Error" — so
not every handler failure is rendered with an "Error ..." prefix. -/
theorem list_generations_nonerror_counterexample :
    (list_generations [] (some "key") none
        [.response 200 (.obj [("foo", .str "bar")])]).output
      = "Response format from Luma API doesn\x27t contain generations: \x7b\x27foo\x27: \x27bar\x27\x7d"
    ∧ ¬ errorPrefixed (list_generations [] (some "key") none
        [.response 200 (.obj [("foo", .str "bar")])]).output := by
  refine ⟨rfl, fun h => ?_⟩
  have h5 := errorPrefixed_head _ h
  exact absurd h5 (by decide)

/-- C3: `create_generation(\x7bprompt:"p", resolution:"720p"\x7d)` sends exactly
the body `\x7bprompt:"p", model:"ray-2", resolution:"720p"\x7d`, and on a
pending mock reply the rendering announces the text-to-video creation
and the pending state. -/
theorem create_generation_roundtrip :
    (create_generation [("prompt", .str "p"), ("resolution", .str "720p")]
        (some "key") none
        [.response 200 (.obj [("id", .str "test-id"), ("state", .str "pending"),
          ("created_at", .str "2024-01-01T00:00:00Z"), ("model", .str "ray-2")])]).bodies
      = [.obj [("prompt", .str "p"), ("model", .str "ray-2"),
          ("resolution", .str "720p")]]
    ∧ strContains (create_generation [("prompt", .str "p"), ("resolution", .str "720p")]
        (some "key") none
        [.response 200 (.obj [("id", .str "test-id"), ("state", .str "pending"),
          ("created_at", .str "2024-01-01T00:00:00Z"), ("model", .str "ray-2")])]).output
        "Created text-to-video generation with ID: test-id" = true
    ∧ strContains (create_generation [("prompt", .str "p"), ("resolution", .str "720p")]
        (some "key") none
        [.response 200 (.obj [("id", .str "test-id"), ("state", .str "pending"),
          ("created_at", .str "2024-01-01T00:00:00Z"), ("model", .str "ray-2")])]).output
        "State: pending" = true := by
  exact ⟨rfl, rfl, rfl⟩

/-- C7 counterexample: with an empty `keyframes` mapping (which contains
neither `frame0` nor `frame1`) the handler does not fail: the falsy dict
skips validation entirely, one network call is made, the body carries no
keyframes, and the text-to-video success rendering is returned. -/
theorem create_generation_empty_keyframes_counterexample :
    (create_generation [("prompt", .str "p"), ("keyframes", .obj [])]
        (some "key") none
        [.response 200 (.obj [("id", .str "i"), ("state", .str "done")])]).attempts = 1
    ∧ (create_generation [("prompt", .str "p"), ("keyframes", .obj [])]
        (some "key") none
        [.response 200 (.obj [("id", .str "i"), ("state", .str "done")])]).bodies
      = [.obj [("prompt", .str "p"), ("model", .str "ray-2")]]
    ∧ (create_generation [("prompt", .str "p"), ("keyframes", .obj [])]
        (some "key") none
        [.response 200 (.obj [("id", .str "i"), ("state", .str "done")])]).output
      = "Created text-to-video generation with ID: i\nState: done\nCreated at: Unknown\nModel: ray-2\nPrompt: p" := by
  exact ⟨rfl, rfl, rfl⟩

theorem lookupField_append (l1 l2 : List (String × JSON)) (k : String) :
    lookupField (l1 ++ l2) k =
      match lookupField l1 k with
      | some v => some v
      | none => lookupField l2 k := by
  induction l1 with
  | nil => rfl
  | cons a t ih =>
    rcases a with ⟨k2, v⟩
    simp only [List.cons_append, lookupField]
    by_cases hk : k2 = k
    · simp [hk]
    · simp [hk, ih]

theorem lookupField_eq_none (l : List (String × JSON)) (k : String)
    (h : ∀ kv ∈ l, kv.1 ≠ k) : lookupField l k = none := by
  induction l with
  | nil => rfl
  | cons a t ih =>
    rcases a with ⟨k2, v⟩
    unfold lookupField
    rw [if_neg (h (k2, v) (List.mem_cons_self _ _))]
    exact ih fun kv hkv => h kv (List.mem_cons_of_mem _ hkv)

theorem lookupField_append_single (l : List (String × JSON)) (k : String) (v : JSON)
    (h : lookupField l k = none) : lookupField (l ++ [(k, v)]) k = some v := by
  rw [lookupField_append, h]
  simp [lookupField]

theorem mem_buildOptional_key (parameters : Params) (kv : String × JSON)
    (h : kv ∈ buildOptional parameters) : kv.1 ∈ optionalParams := by
  unfold buildOptional at h
  rw [List.mem_filterMap] at h
  obtain ⟨k, hk, hf⟩ := h
  split at hf
  · exact absurd hf (by simp)
  · rw [Option.some_inj] at hf
    rw [← hf]
    exact hk
  · exact absurd hf (by simp)

theorem data0_keyframes_none (parameters : Params) (p m : JSON) :
    lookupField ([("prompt", p), ("model", m)] ++ buildOptional parameters)
      "keyframes" = none := by
  rw [lookupField_append]
  have h1 : lookupField [("prompt", p), ("model", m)] "keyframes" = none := rfl
  rw [h1]
  refine lookupField_eq_none _ _ fun kv hkv => ?_
  have hmem := mem_buildOptional_key parameters kv hkv
  simp only [optionalParams, List.mem_cons, List.not_mem_nil, or_false] at hmem
  rcases hmem with h | h | h | h | h <;> simp [h]

theorem lookupField_of_pget_obj {p : Params} {k : String} {kf : List (String × JSON)}
    (h : pget p k = .obj kf) : lookupField p k = some (.obj kf) := by
  unfold pget pgetD at h
  cases heq : lookupField p k with
  | none => rw [heq] at h; simp at h
  | some v => rw [heq] at h; simp at h; rw [h]

theorem mem_callBodies {ak ek : Option String} {j b : JSON}
    (h : b ∈ callBodies ak ek (some j)) : b = j := by
  unfold callBodies at h
  split at h
  · simpa using h
  · simp at h

theorem keyframesStep_missing_frames (parameters : Params)
    (data0 kf : List (String × JSON))
    (hkf : pget parameters "keyframes" = .obj kf) (hne : kf ≠ [])
    (h0 : lookupField kf "frame0" = none) (h1 : lookupField kf "frame1" = none) :
    keyframesStep parameters data0 = .error "keyframes must contain frame0 or frame1" := by
  have ht : (JSON.obj kf).isTruthy = true := by
    cases kf with
    | nil => exact absurd rfl hne
    | cons a t => rfl
  unfold keyframesStep
  rw [hkf, lookupField_of_pget_obj hkf]
  dsimp only []
  simp [ht, h0, h1]

theorem keyframesStep_empty (parameters : Params) (data0 : List (String × JSON))
    (hkf : pget parameters "keyframes" = .obj []) :
    keyframesStep parameters data0 = .ok data0 := by
  unfold keyframesStep
  rw [hkf, lookupField_of_pget_obj hkf]
  dsimp only []
  simp [JSON.isTruthy]

theorem keyframesStep_with_frames (parameters : Params)
    (data0 kf : List (String × JSON))
    (hkf : pget parameters "keyframes" = .obj kf)
    (hp : (lookupField kf "frame0").isSome = true
        ∨ (lookupField kf "frame1").isSome = true)
    (hc : framesCheck kf = .ok ()) :
    keyframesStep parameters data0 = .ok (data0 ++ [("keyframes", .obj kf)]) := by
  have hne : kf ≠ [] := by
    rintro rfl
    rcases hp with h | h <;> simp [lookupField] at h
  have ht : (JSON.obj kf).isTruthy = true := by
    cases kf with
    | nil => exact absurd rfl hne
    | cons a t => rfl
  have hor : ((lookupField kf "frame0").isSome
      || (lookupField kf "frame1").isSome) = true := by
    rcases hp with h | h <;> simp [h]
  unfold keyframesStep
  rw [hkf, lookupField_of_pget_obj hkf]
  dsimp only []
  simp [ht, hor, hc]

theorem create_generation_bodies (parameters : Params) (ak ek : Option String)
    (rs : List NetResult) (s : String)
    (hprompt : pget parameters "prompt" = .str s) (hs : s ≠ "")
    (data : List (String × JSON))
    (hstep : keyframesStep parameters
      ([("prompt", pget parameters "prompt"),
        ("model", pgetD parameters "model" (.str "ray-2"))] ++ buildOptional parameters)
      = .ok data) :
    (create_generation parameters ak ek rs).bodies
      = callBodies ak ek (some (.obj data)) := by
  have hcond : (!(pget parameters "prompt").isTruthy) = false := by
    rw [hprompt]
    simp [JSON.isTruthy, hs]
  unfold create_generation
  dsimp only []
  rw [hcond]
  simp only [Bool.false_eq_true, if_false]
  rw [hstep]
  cases callResult ak ek rs with
  | error m => rfl
  | ok result =>
    cases result with
    | null => rfl
    | bool b => rfl
    | num t => rfl
    | str s2 => rfl
    | arr xs => rfl
    | obj fields =>
      dsimp only []
      split
      · rfl
      · split
        · rfl
        · rfl

/-- C7 (amended): for a create_generation call with a valid prompt, a
NON-EMPTY keyframes mapping containing neither frame0 nor frame1 makes
the handler fail with the keyframes error and no network call; an empty
keyframes mapping is falsy and skips the validation entirely, so no
`keyframes` key is ever sent; and when at least one of frame0/frame1 is
present (with dict frame values, as the classification pass requires),
the keyframes mapping is copied unchanged into the request body. -/
theorem keyframes_validation_amended :
    ∀ (parameters : Params) (ak ek : Option String) (rs : List NetResult)
      (s : String) (kf : List (String × JSON)),
      pget parameters "prompt" = .str s → s ≠ "" →
      pget parameters "keyframes" = .obj kf →
      ((kf ≠ [] → lookupField kf "frame0" = none → lookupField kf "frame1" = none →
         (create_generation parameters ak ek rs).output
           = "Error creating generation: keyframes must contain frame0 or frame1"
         ∧ (create_generation parameters ak ek rs).attempts = 0)
      ∧ (kf = [] →
         ∀ b ∈ (create_generation parameters ak ek rs).bodies, ∀ fs, b = .obj fs →
           lookupField fs "keyframes" = none)
      ∧ (((lookupField kf "frame0").isSome = true
            ∨ (lookupField kf "frame1").isSome = true) →
         framesCheck kf = .ok () →
         ∀ b ∈ (create_generation parameters ak ek rs).bodies, ∀ fs, b = .obj fs →
           lookupField fs "keyframes" = some (.obj kf))) := by
  intro parameters ak ek rs s kf hprompt hs hkf
  have hcond : (!(pget parameters "prompt").isTruthy) = false := by
    rw [hprompt]
    simp [JSON.isTruthy, hs]
  refine ⟨?_, ?_, ?_⟩
  · intro hne h0 h1
    have hstep := keyframesStep_missing_frames parameters
      ([("prompt", pget parameters "prompt"),
        ("model", pgetD parameters "model" (.str "ray-2"))] ++ buildOptional parameters)
      kf hkf hne h0 h1
    unfold create_generation
    dsimp only []
    rw [hcond]
    simp only [Bool.false_eq_true, if_false]
    rw [hstep]
    exact ⟨rfl, rfl⟩
  · intro he
    subst he
    have hbodies := create_generation_bodies parameters ak ek rs s hprompt hs _
      (keyframesStep_empty parameters
        ([("prompt", pget parameters "prompt"),
          ("model", pgetD parameters "model" (.str "ray-2"))] ++ buildOptional parameters)
        hkf)
    intro b hb fs hfs
    subst hfs
    rw [hbodies] at hb
    have hbb := mem_callBodies hb
    injection hbb with hfs2
    rw [hfs2]
    exact data0_keyframes_none parameters _ _
  · intro hp hc
    have hbodies := create_generation_bodies parameters ak ek rs s hprompt hs _
      (keyframesStep_with_frames parameters
        ([("prompt", pget parameters "prompt"),
          ("model", pgetD parameters "model" (.str "ray-2"))] ++ buildOptional parameters)
        kf hkf hp hc)
    intro b hb fs hfs
    subst hfs
    rw [hbodies] at hb
    have hbb := mem_callBodies hb
    injection hbb with hfs2
    rw [hfs2]
    exact lookupField_append_single _ _ _ (data0_keyframes_none parameters _ _)

/-- Witness for C7 (amended): a one-key keyframes mapping without
frame0/frame1 produces the validation error and zero network attempts. -/
theorem keyframes_validation_amended_witness :
    (create_generation [("prompt", .str "p"), ("keyframes", .obj [("frame2", .null)])]
        (some "k") none []).output
      = "Error creating generation: keyframes must contain frame0 or frame1"
    ∧ (create_generation [("prompt", .str "p"), ("keyframes", .obj [("frame2", .null)])]
        (some "k") none []).attempts = 0 :=
  (keyframes_validation_amended
      [("prompt", .str "p"), ("keyframes", .obj [("frame2", .null)])]
      (some "k") none [] "p" [("frame2", .null)] rfl (by decide) rfl).1
    (List.cons_ne_nil _ _) rfl rfl

theorem pget_none {p : Params} {k : String} (h : lookupField p k = none) :
    pget p k = .null := by
  unfold pget pgetD
  rw [h]

theorem str_truthy {g : String} (hg : g ≠ "") :
    (!(JSON.str g).isTruthy) = false := by
  simp [JSON.isTruthy, hg]

theorem upscaleErrorText_generic (parameters : Params) (msg : String)
    (h1 : strContains msg "same resolution as the original" = false)
    (h2 : strContains msg "HTTP error 400" = false)
    (h3 : strContains msg "HTTP error 500" = false) :
    upscaleErrorText parameters msg =
      "Error upscaling generation " ++ (pget parameters "generation_id").display
        ++ ": " ++ msg := by
  unfold upscaleErrorText
  dsimp only []
  rw [h1, h2, h3]
  simp

/-- C4: each handler with required arguments rejects a call whose
required argument is absent — and upscale_generation also rejects a
resolution outside 540p/720p/1080p/4k — returning the describing error
string and making no network attempt. -/
theorem required_arguments_validated :
    ∀ (parameters : Params) (ak ek : Option String) (rs : List NetResult),
      ((lookupField parameters "prompt" = none →
         (create_generation parameters ak ek rs).output
           = "Error creating generation: prompt parameter is required"
         ∧ (create_generation parameters ak ek rs).attempts = 0)
      ∧ (lookupField parameters "generation_id" = none →
         (get_generation parameters ak ek rs).output
           = "Error getting generation None: generation_id parameter is required"
         ∧ (get_generation parameters ak ek rs).attempts = 0)
      ∧ (lookupField parameters "generation_id" = none →
         (delete_generation parameters ak ek rs).output
           = "Error deleting generation None: generation_id parameter is required"
         ∧ (delete_generation parameters ak ek rs).attempts = 0)
      ∧ (lookupField parameters "generation_id" = none →
         (upscale_generation parameters ak ek rs).output
           = "Error upscaling generation None: generation_id parameter is required"
         ∧ (upscale_generation parameters ak ek rs).attempts = 0)
      ∧ (∀ g : String, pget parameters "generation_id" = .str g → g ≠ "" →
         lookupField parameters "resolution" = none →
         (upscale_generation parameters ak ek rs).output
           = "Error upscaling generation " ++ g
               ++ ": resolution parameter is required for upscaling"
         ∧ (upscale_generation parameters ak ek rs).attempts = 0)
      ∧ (∀ g v : String, pget parameters "generation_id" = .str g → g ≠ "" →
         pget parameters "resolution" = .str v → v ≠ "" →
         v ≠ "540p" → v ≠ "720p" → v ≠ "1080p" → v ≠ "4k" →
         strContains ("Invalid resolution: " ++ v
             ++ ". Must be one of 540p, 720p, 1080p, 4k")
           "same resolution as the original" = false →
         strContains ("Invalid resolution: " ++ v
             ++ ". Must be one of 540p, 720p, 1080p, 4k") "HTTP error 400" = false →
         strContains ("Invalid resolution: " ++ v
             ++ ". Must be one of 540p, 720p, 1080p, 4k") "HTTP error 500" = false →
         (upscale_generation parameters ak ek rs).output
           = "Error upscaling generation " ++ g ++ ": "
               ++ ("Invalid resolution: " ++ v
                 ++ ". Must be one of 540p, 720p, 1080p, 4k")
         ∧ (upscale_generation parameters ak ek rs).attempts = 0)
      ∧ (lookupField parameters "generation_id" = none →
         (add_audio parameters ak ek rs).output
           = "Error adding audio to generation None: generation_id parameter is required"
         ∧ (add_audio parameters ak ek rs).attempts = 0)
      ∧ (∀ g : String, pget parameters "generation_id" = .str g → g ≠ "" →
         lookupField parameters "prompt" = none →
         (add_audio parameters ak ek rs).output
           = "Error adding audio to generation " ++ g
               ++ ": prompt parameter is required for audio generation"
         ∧ (add_audio parameters ak ek rs).attempts = 0)
      ∧ (lookupField parameters "prompt" = none →
         (generate_image parameters ak ek rs).output
           = "Error generating image for prompt \x27None\x27: prompt parameter is required"
         ∧ (generate_image parameters ak ek rs).attempts = 0)) := by
  intro parameters ak ek rs
  refine ⟨?_, ?_, ?_, ?_, ?_, ?_, ?_, ?_, ?_⟩
  · intro h
    unfold create_generation
    dsimp only []
    rw [pget_none h]
    exact ⟨rfl, rfl⟩
  · intro h
    unfold get_generation
    dsimp only []
    rw [pget_none h]
    exact ⟨rfl, rfl⟩
  · intro h
    unfold delete_generation
    dsimp only []
    rw [pget_none h]
    exact ⟨rfl, rfl⟩
  · intro h
    unfold upscale_generation
    dsimp only []
    rw [pget_none h,
      upscaleErrorText_generic parameters "generation_id parameter is required"
        rfl rfl rfl, pget_none h]
    exact ⟨rfl, rfl⟩
  · intro g hg hgne h
    unfold upscale_generation
    dsimp only []
    rw [hg, str_truthy hgne]
    simp only [Bool.false_eq_true, if_false]
    rw [pget_none h,
      upscaleErrorText_generic parameters
        "resolution parameter is required for upscaling" rfl rfl rfl, hg]
    refine ⟨?_, rfl⟩
    rw [str_append_assoc]
    rfl
  · intro g v hg hgne hv hvne h5 h7 h10 h4k hc1 hc2 hc3
    have hval : ((["540p", "720p", "1080p", "4k"] : List String).any
        fun r => (JSON.str v).eqStr r) = false := by
      simp [JSON.eqStr, h5, h7, h10, h4k]
    unfold upscale_generation
    dsimp only []
    rw [hg, str_truthy hgne]
    simp only [Bool.false_eq_true, if_false]
    rw [hv, str_truthy hvne]
    simp only [Bool.false_eq_true, if_false]
    rw [hval]
    rw [upscaleErrorText_generic parameters
        ("Invalid resolution: " ++ (JSON.str v).display
          ++ ". Must be one of 540p, 720p, 1080p, 4k") hc1 hc2 hc3, hg]
    exact ⟨rfl, rfl⟩
  · intro h
    unfold add_audio
    dsimp only []
    rw [pget_none h]
    exact ⟨rfl, rfl⟩
  · intro g hg hgne h
    unfold add_audio
    dsimp only []
    rw [hg, str_truthy hgne]
    simp only [Bool.false_eq_true, if_false]
    rw [pget_none h]
    exact ⟨rfl, rfl⟩
  · intro h
    unfold generate_image
    dsimp only []
    rw [pget_none h]
    exact ⟨rfl, rfl⟩

/-- Witness for C4: a missing prompt and an invalid upscale resolution
at concrete inputs. -/
theorem required_arguments_validated_witness :
    (create_generation [] none none []).output
      = "Error creating generation: prompt parameter is required"
    ∧ (create_generation [] none none []).attempts = 0
    ∧ (upscale_generation [("generation_id", JSON.str "g"),
          ("resolution", JSON.str "999p")] none none []).output
      = "Error upscaling generation " ++ "g" ++ ": "
          ++ ("Invalid resolution: " ++ "999p"
            ++ ". Must be one of 540p, 720p, 1080p, 4k")
    ∧ (upscale_generation [("generation_id", JSON.str "g"),
          ("resolution", JSON.str "999p")] none none []).attempts = 0 := by
  have h1 := (required_arguments_validated [] none none []).1 rfl
  have h2 := (required_arguments_validated
      [("generation_id", JSON.str "g"), ("resolution", JSON.str "999p")]
      none none []).2.2.2.2.2.1 "g" "999p" rfl (by decide) rfl (by decide)
      (by decide) (by decide) (by decide) (by decide) (by decide) (by decide)
      (by decide)
  exact ⟨h1.1, h1.2, h2.1, h2.2⟩

/-- C10: a required string argument that is present but empty is handled
exactly like an absent one — the handler returns the same
"parameter is required" error text and performs no network attempt. -/
theorem falsy_required_arguments_validated :
    ∀ (parameters : Params) (ak ek : Option String) (rs : List NetResult),
      ((pget parameters "prompt" = .str "" →
         (create_generation parameters ak ek rs).output
           = "Error creating generation: prompt parameter is required"
         ∧ (create_generation parameters ak ek rs).attempts = 0)
      ∧ (pget parameters "generation_id" = .str "" →
         (get_generation parameters ak ek rs).output
           = "Error getting generation : generation_id parameter is required"
         ∧ (get_generation parameters ak ek rs).attempts = 0)
      ∧ (pget parameters "generation_id" = .str "" →
         (delete_generation parameters ak ek rs).output
           = "Error deleting generation : generation_id parameter is required"
         ∧ (delete_generation parameters ak ek rs).attempts = 0)
      ∧ (pget parameters "generation_id" = .str "" →
         (upscale_generation parameters ak ek rs).output
           = "Error upscaling generation : generation_id parameter is required"
         ∧ (upscale_generation parameters ak ek rs).attempts = 0)
      ∧ (∀ g : String, pget parameters "generation_id" = .str g → g ≠ "" →
         pget parameters "resolution" = .str "" →
         (upscale_generation parameters ak ek rs).output
           = "Error upscaling generation " ++ g
               ++ ": resolution parameter is required for upscaling"
         ∧ (upscale_generation parameters ak ek rs).attempts = 0)
      ∧ (pget parameters "generation_id" = .str "" →
         (add_audio parameters ak ek rs).output
           = "Error adding audio to generation : generation_id parameter is required"
         ∧ (add_audio parameters ak ek rs).attempts = 0)
      ∧ (∀ g : String, pget parameters "generation_id" = .str g → g ≠ "" →
         pget parameters "prompt" = .str "" →
         (add_audio parameters ak ek rs).output
           = "Error adding audio to generation " ++ g
               ++ ": prompt parameter is required for audio generation"
         ∧ (add_audio parameters ak ek rs).attempts = 0)
      ∧ (pget parameters "prompt" = .str "" →
         (generate_image parameters ak ek rs).output
           = "Error generating image for prompt \x27\x27: prompt parameter is required"
         ∧ (generate_image parameters ak ek rs).attempts = 0)) := by
  intro parameters ak ek rs
  refine ⟨?_, ?_, ?_, ?_, ?_, ?_, ?_, ?_⟩
  · intro h
    unfold create_generation
    dsimp only []
    rw [h]
    exact ⟨rfl, rfl⟩
  · intro h
    unfold get_generation
    dsimp only []
    rw [h]
    exact ⟨rfl, rfl⟩
  · intro h
    unfold delete_generation
    dsimp only []
    rw [h]
    exact ⟨rfl, rfl⟩
  · intro h
    unfold upscale_generation
    dsimp only []
    rw [h, upscaleErrorText_generic parameters
      "generation_id parameter is required" rfl rfl rfl, h]
    exact ⟨rfl, rfl⟩
  · intro g hg hgne h
    unfold upscale_generation
    dsimp only []
    rw [hg, str_truthy hgne]
    simp only [Bool.false_eq_true, if_false]
    rw [h, upscaleErrorText_generic parameters
      "resolution parameter is required for upscaling" rfl rfl rfl, hg]
    refine ⟨?_, rfl⟩
    rw [str_append_assoc]
    rfl
  · intro h
    unfold add_audio
    dsimp only []
    rw [h]
    exact ⟨rfl, rfl⟩
  · intro g hg hgne h
    unfold add_audio
    dsimp only []
    rw [hg, str_truthy hgne]
    simp only [Bool.false_eq_true, if_false]
    rw [h]
    exact ⟨rfl, rfl⟩
  · intro h
    unfold generate_image
    dsimp only []
    rw [h]
    exact ⟨rfl, rfl⟩

/-- Witness for C10: empty-string prompt and generation_id at concrete
inputs behave like absent arguments. -/
theorem falsy_required_arguments_validated_witness :
    (create_generation [("prompt", JSON.str "")] none none []).output
      = "Error creating generation: prompt parameter is required"
    ∧ (create_generation [("prompt", JSON.str "")] none none []).attempts = 0
    ∧ (get_generation [("generation_id", JSON.str "")] none none []).output
      = "Error getting generation : generation_id parameter is required"
    ∧ (get_generation [("generation_id", JSON.str "")] none none []).attempts = 0 := by
  have h1 := (falsy_required_arguments_validated
      [("prompt", JSON.str "")] none none []).1 rfl
  have h2 := (falsy_required_arguments_validated
      [("generation_id", JSON.str "")] none none []).2.1 rfl
  exact ⟨h1.1, h1.2, h2.1, h2.2⟩

/-- C6: in create_generation's rendering, a lone image frame0 yields
"starting from an image"; frame0 plus a generation frame1 yields
"interpolating between videos", and that phrase can only arise when both
frames are present (frame0 absent forces the "reverse extending" label
instead, frame1 absent produces only frame0 phrases); a lone generation
frame1 yields "reverse extending". -/
theorem keyframe_classification :
    (strContains (create_generation
        [("prompt", .str "p"),
         ("keyframes", .obj [("frame0",
            .obj [("type", .str "image"), ("url", .str "u")])])]
        (some "k") none
        [.response 200 (.obj [("id", .str "i"), ("state", .str "s")])]).output
      "starting from an image" = true)
  ∧ (strContains (create_generation
        [("prompt", .str "p"),
         ("keyframes", .obj [("frame0",
            .obj [("type", .str "image"), ("url", .str "u")]),
          ("frame1", .obj [("type", .str "generation"), ("id", .str "g")])])]
        (some "k") none
        [.response 200 (.obj [("id", .str "i"), ("state", .str "s")])]).output
      "interpolating between videos" = true)
  ∧ (∀ kf : List (String × JSON), lookupField kf "frame0" = none →
      strContains (keyframeDescription kf) "interpolating between videos" = false)
  ∧ (∀ kf : List (String × JSON), lookupField kf "frame1" = none →
      strContains (keyframeDescription kf) "interpolating between videos" = false)
  ∧ (strContains (create_generation
        [("prompt", .str "p"),
         ("keyframes", .obj [("frame1",
            .obj [("type", .str "generation"), ("id", .str "g")])])]
        (some "k") none
        [.response 200 (.obj [("id", .str "i"), ("state", .str "s")])]).output
      "reverse extending" = true) := by
  refine ⟨rfl, rfl, ?_, ?_, rfl⟩
  · intro kf h0
    unfold keyframeDescription frameTypeOf
    dsimp only []
    rw [h0]
    cases h1 : lookupField kf "frame1" with
    | none => rfl
    | some v =>
      cases v with
      | obj fs =>
        simp only [Option.isSome_none, Option.isSome_some, Bool.false_eq_true,
          if_false, if_true]
        split
        · decide
        · split
          · decide
          · decide
      | null => rfl
      | bool b => rfl
      | num t => rfl
      | str s2 => rfl
      | arr xs => rfl
  · intro kf h1
    unfold keyframeDescription frameTypeOf
    dsimp only []
    rw [h1]
    cases h0 : lookupField kf "frame0" with
    | none => rfl
    | some v =>
      cases v with
      | obj fs =>
        simp only [Option.isSome_none, Option.isSome_some, Bool.false_eq_true,
          if_false, if_true]
        split
        · decide
        · split
          · decide
          · decide
      | null => rfl
      | bool b => rfl
      | num t => rfl
      | str s2 => rfl
      | arr xs => rfl

/-- Witness for C6: a lone generation frame1 never renders the
interpolation phrase. -/
theorem keyframe_classification_witness :
    strContains
      (keyframeDescription [("frame1",
        JSON.obj [("type", JSON.str "generation"), ("id", JSON.str "g")])])
      "interpolating between videos" = false :=
  keyframe_classification.2.2.1 _ rfl

theorem pgetD_some {p : Params} {k : String} {v d : JSON}
    (h : lookupField p k = some v) : pgetD p k d = v := by
  unfold pgetD
  rw [h]

/-- C8: get_credits prefers the single-balance shape whenever a
credit_balance key is present (rendering only that value), and otherwise
renders the available/used/total triple, each value defaulting to
"Unknown" when its key is absent. -/
theorem get_credits_shapes :
    ∀ (parameters : Params) (fields : List (String × JSON)),
      ((lookupField fields "credit_balance").isSome = true →
        (get_credits parameters (some "k") none
            [.response 200 (.obj fields)]).output
          = "Credit Information:\nAvailable Credits: "
              ++ (pgetD fields "credit_balance" (.str "Unknown")).display)
    ∧ (lookupField fields "credit_balance" = none →
        (get_credits parameters (some "k") none
            [.response 200 (.obj fields)]).output
          = "Credit Information:\nAvailable Credits: "
              ++ (pgetD fields "credits_available" (.str "Unknown")).display
              ++ "\nUsed Credits: "
              ++ (pgetD fields "credits_used" (.str "Unknown")).display
              ++ "\nTotal Credits: "
              ++ (pgetD fields "credits_total" (.str "Unknown")).display) := by
  intro parameters fields
  have hcall : callResult (some "k") none [.response 200 (.obj fields)]
      = .ok (.obj fields) := rfl
  constructor
  · intro h
    unfold get_credits
    rw [hcall]
    dsimp only []
    rw [h]
    rfl
  · intro h
    unfold get_credits
    rw [hcall]
    dsimp only []
    rw [h]
    rfl

/-- Witness for C8: a reply with only credit_balance renders the single
balance, and a triple without credit_balance renders all three values
with "Unknown" for the absent one. -/
theorem get_credits_shapes_witness :
    (get_credits [] (some "k") none
        [.response 200 (.obj [("credit_balance", .num "150000.0")])]).output
      = "Credit Information:\nAvailable Credits: "
          ++ (pgetD [("credit_balance", JSON.num "150000.0")] "credit_balance"
              (.str "Unknown")).display
    ∧ (get_credits [] (some "k") none
        [.response 200 (.obj [("credits_available", .num "1"),
          ("credits_used", .num "2")])]).output
      = "Credit Information:\nAvailable Credits: "
          ++ (pgetD [("credits_available", JSON.num "1"), ("credits_used", JSON.num "2")]
              "credits_available" (.str "Unknown")).display
          ++ "\nUsed Credits: "
          ++ (pgetD [("credits_available", JSON.num "1"), ("credits_used", JSON.num "2")]
              "credits_used" (.str "Unknown")).display
          ++ "\nTotal Credits: "
          ++ (pgetD [("credits_available", JSON.num "1"), ("credits_used", JSON.num "2")]
              "credits_total" (.str "Unknown")).display :=
  ⟨(get_credits_shapes [] [("credit_balance", .num "150000.0")]).1 rfl,
   (get_credits_shapes [] [("credits_available", .num "1"),
      ("credits_used", .num "2")]).2 rfl⟩

/-- C9: generate_image never rejects a model argument: an unsupported
model value is silently replaced by "photon-1" and the request body sent
is exactly the prompt plus that default; a supported model value is
passed through unchanged.  In both cases exactly one network attempt is
made. -/
theorem generate_image_model_coercion :
    ∀ (parameters : Params) (rs : List NetResult) (s : String) (m : JSON),
      pget parameters "prompt" = .str s → s ≠ "" →
      lookupField parameters "model" = some m →
      ((m.eqStr "photon-1" = false → m.eqStr "photon-flash-1" = false →
        (generate_image parameters (some "k") none rs).attempts = 1
        ∧ (generate_image parameters (some "k") none rs).bodies
          = [.obj [("prompt", .str s), ("model", .str "photon-1")]])
      ∧ ((m.eqStr "photon-1" || m.eqStr "photon-flash-1") = true →
        (generate_image parameters (some "k") none rs).attempts = 1
        ∧ (generate_image parameters (some "k") none rs).bodies
          = [.obj [("prompt", .str s), ("model", m)]])) := by
  intro parameters rs s m hprompt hs hm
  constructor
  · intro h1 h2
    unfold generate_image
    dsimp only []
    rw [hprompt, str_truthy hs]
    simp only [Bool.false_eq_true, if_false]
    rw [pgetD_some hm, h1, h2]
    simp only [Bool.or_self, Bool.false_eq_true, if_false]
    refine ⟨?_, ?_⟩
    · split
      · rfl
      · split <;> rfl
    · split
      · rfl
      · split <;> rfl
  · intro hsup
    unfold generate_image
    dsimp only []
    rw [hprompt, str_truthy hs]
    simp only [Bool.false_eq_true, if_false]
    rw [pgetD_some hm, hsup]
    simp only [if_true]
    refine ⟨?_, ?_⟩
    · split
      · rfl
      · split <;> rfl
    · split
      · rfl
      · split <;> rfl

/-- Witness for C9: the unsupported model "ray-2" is coerced to
"photon-1" in the sent body, and "photon-flash-1" passes through. -/
theorem generate_image_model_coercion_witness :
    ((generate_image [("prompt", JSON.str "p"), ("model", JSON.str "ray-2")]
        (some "k") none []).attempts = 1
      ∧ (generate_image [("prompt", JSON.str "p"), ("model", JSON.str "ray-2")]
          (some "k") none []).bodies
        = [.obj [("prompt", .str "p"), ("model", .str "photon-1")]])
    ∧ ((generate_image [("prompt", JSON.str "p"),
          ("model", JSON.str "photon-flash-1")] (some "k") none []).attempts = 1
      ∧ (generate_image [("prompt", JSON.str "p"),
          ("model", JSON.str "photon-flash-1")] (some "k") none []).bodies
        = [.obj [("prompt", .str "p"), ("model", .str "photon-flash-1")]]) :=
  ⟨(generate_image_model_coercion [("prompt", JSON.str "p"),
      ("model", JSON.str "ray-2")] [] "p" (JSON.str "ray-2") rfl (by decide) rfl).1
      rfl rfl,
   (generate_image_model_coercion [("prompt", JSON.str "p"),
      ("model", JSON.str "photon-flash-1")] [] "p" (JSON.str "photon-flash-1")
      rfl (by decide) rfl).2 rfl⟩

theorem httpErrorMsg_contains_500 (j : JSON) :
    strContains (httpErrorMsg 500 j) "HTTP error 500" = true := by
  unfold httpErrorMsg
  cases hj : j.isTruthy
  · exact strContains_prefix "HTTP error 500" ""
  · exact strContains_prefix "HTTP error 500" (": " ++ j.display)

theorem upscaleLoop_ok_step (ak ek : Option String) (rs : List NetResult)
    (resD : String) (idx fuel : Nat) (j : JSON)
    (hc : callResultAt ak ek rs idx = .ok j) :
    upscaleLoop ak ek rs resD idx fuel = (.ok j, callAttempts ak ek, 0) := by
  cases fuel with
  | zero => unfold upscaleLoop; rw [hc]
  | succ f => unfold upscaleLoop; rw [hc]

theorem upscaleLoop_sameres_step (ak ek : Option String) (rs : List NetResult)
    (resD : String) (idx fuel : Nat) (msg : String)
    (hc : callResultAt ak ek rs idx = .error msg)
    (hs : strContains msg "same resolution as the original" = true) :
    upscaleLoop ak ek rs resD idx fuel
      = (.error (sameResolutionRewrite resD), callAttempts ak ek, 0) := by
  cases fuel with
  | zero => unfold upscaleLoop; rw [hc]; simp only [hs, if_true]
  | succ f => unfold upscaleLoop; rw [hc]; simp only [hs, if_true]

theorem upscaleLoop_500_step (ak ek : Option String) (rs : List NetResult)
    (resD : String) (idx f : Nat) (j : JSON)
    (hc : callResultAt ak ek rs idx = .error (httpErrorMsg 500 j))
    (hn : strContains (httpErrorMsg 500 j)
        "same resolution as the original" = false) :
    upscaleLoop ak ek rs resD idx (f + 1)
      = ((upscaleLoop ak ek rs resD (idx + 1) f).1,
         callAttempts ak ek + (upscaleLoop ak ek rs resD (idx + 1) f).2.1,
         1 + (upscaleLoop ak ek rs resD (idx + 1) f).2.2) := by
  conv_lhs => rw [upscaleLoop]
  rw [hc]
  simp only [hn, httpErrorMsg_contains_500 j, Bool.false_eq_true, if_false,
    if_true]

theorem upscaleLoop_two500_then_ok (ak ek : Option String) (rs : List NetResult)
    (resD : String) (j1 j2 okBody : JSON)
    (hc0 : callResultAt ak ek rs 0 = .error (httpErrorMsg 500 j1))
    (hc1 : callResultAt ak ek rs 1 = .error (httpErrorMsg 500 j2))
    (hc2 : callResultAt ak ek rs 2 = .ok okBody)
    (hn1 : strContains (httpErrorMsg 500 j1)
        "same resolution as the original" = false)
    (hn2 : strContains (httpErrorMsg 500 j2)
        "same resolution as the original" = false) :
    upscaleLoop ak ek rs resD 0 2
      = (.ok okBody,
         callAttempts ak ek + (callAttempts ak ek + callAttempts ak ek), 2) := by
  have h0 : upscaleLoop ak ek rs resD (0 + 1 + 1) 0
      = (.ok okBody, callAttempts ak ek, 0) :=
    upscaleLoop_ok_step ak ek rs resD (0 + 1 + 1) 0 okBody hc2
  have h1 : upscaleLoop ak ek rs resD (0 + 1) 1
      = ((upscaleLoop ak ek rs resD (0 + 1 + 1) 0).1,
         callAttempts ak ek + (upscaleLoop ak ek rs resD (0 + 1 + 1) 0).2.1,
         1 + (upscaleLoop ak ek rs resD (0 + 1 + 1) 0).2.2) :=
    upscaleLoop_500_step ak ek rs resD (0 + 1) 0 j2 hc1 hn2
  have h2 : upscaleLoop ak ek rs resD 0 2
      = ((upscaleLoop ak ek rs resD (0 + 1) 1).1,
         callAttempts ak ek + (upscaleLoop ak ek rs resD (0 + 1) 1).2.1,
         1 + (upscaleLoop ak ek rs resD (0 + 1) 1).2.2) :=
    upscaleLoop_500_step ak ek rs resD 0 1 j1 hc0 hn1
  rw [h2, h1, h0]
  rfl

/-- C2: with two consecutive HTTP-500 replies followed by a 200,
upscale_generation makes exactly 3 network attempts with a 2-second
pause before each of the 2 retries (sleeps counts those pauses) and
returns the success rendering of the final reply; with a single reply
whose error text contains "same resolution as the original", exactly 1
attempt is made, no pause happens, and the returned text explains the
resolution conflict. -/
theorem upscale_retry_behavior :
    (∀ j1 j2 okBody : JSON,
      strContains (httpErrorMsg 500 j1) "same resolution as the original" = false →
      strContains (httpErrorMsg 500 j2) "same resolution as the original" = false →
      (upscale_generation [("generation_id", .str "g"), ("resolution", .str "720p")]
          (some "k") none
          [.response 500 j1, .response 500 j2, .response 200 okBody]).attempts = 3
      ∧ (upscale_generation [("generation_id", .str "g"), ("resolution", .str "720p")]
          (some "k") none
          [.response 500 j1, .response 500 j2, .response 200 okBody]).sleeps = 2
      ∧ (upscale_generation [("generation_id", .str "g"), ("resolution", .str "720p")]
          (some "k") none
          [.response 500 j1, .response 500 j2, .response 200 okBody]).output
        = upscaleRender [("generation_id", .str "g"), ("resolution", .str "720p")]
            okBody)
  ∧ (∀ (st : Nat) (j : JSON), 400 ≤ st →
      strContains (httpErrorMsg st j) "same resolution as the original" = true →
      (upscale_generation [("generation_id", .str "g"), ("resolution", .str "720p")]
          (some "k") none [.response st j]).attempts = 1
      ∧ (upscale_generation [("generation_id", .str "g"), ("resolution", .str "720p")]
          (some "k") none [.response st j]).sleeps = 0
      ∧ (upscale_generation [("generation_id", .str "g"), ("resolution", .str "720p")]
          (some "k") none [.response st j]).output
        = "Error upscaling generation g: Cannot upscale to 720p because the original generation is already at this resolution. Please choose a higher resolution.") := by
  constructor
  · intro j1 j2 okBody hn1 hn2
    have hcomb : upscaleLoop (some "k") none
        [.response 500 j1, .response 500 j2, .response 200 okBody]
        ((pget [("generation_id", JSON.str "g"), ("resolution", JSON.str "720p")]
          "resolution").display) 0 2
        = (.ok okBody, 3, 2) :=
      upscaleLoop_two500_then_ok _ _ _ _ _ _ _ rfl rfl rfl hn1 hn2
    unfold upscale_generation
    dsimp only []
    rw [hcomb]
    exact ⟨rfl, rfl, rfl⟩
  · intro st j hst hcontains
    have hc : callResultAt (some "k") none [.response st j] 0
        = .error (httpErrorMsg st j) := by
      show (if 400 ≤ st then Except.error (httpErrorMsg st j) else Except.ok j)
          = Except.error (httpErrorMsg st j)
      rw [if_pos hst]
    have hstep : upscaleLoop (some "k") none [.response st j]
        ((pget [("generation_id", JSON.str "g"), ("resolution", JSON.str "720p")]
          "resolution").display) 0 2
        = (.error (sameResolutionRewrite
            ((pget [("generation_id", JSON.str "g"),
              ("resolution", JSON.str "720p")] "resolution").display)), 1, 0) :=
      upscaleLoop_sameres_step _ _ _ _ _ _ _ hc hcontains
    unfold upscale_generation
    dsimp only []
    rw [hstep]
    exact ⟨rfl, rfl, rfl⟩

/-- Witness for C2: concrete 500 bodies and a concrete same-resolution
400 reply exercise both behaviors. -/
theorem upscale_retry_behavior_witness :
    ((upscale_generation [("generation_id", .str "g"), ("resolution", .str "720p")]
        (some "k") none
        [.response 500 (.obj [("detail", .str "boom")]),
         .response 500 (.obj [("detail", .str "boom")]),
         .response 200 (.obj [("id", .str "i"), ("state", .str "done")])]).attempts = 3
      ∧ (upscale_generation [("generation_id", .str "g"), ("resolution", .str "720p")]
        (some "k") none
        [.response 500 (.obj [("detail", .str "boom")]),
         .response 500 (.obj [("detail", .str "boom")]),
         .response 200 (.obj [("id", .str "i"), ("state", .str "done")])]).sleeps = 2
      ∧ (upscale_generation [("generation_id", .str "g"), ("resolution", .str "720p")]
        (some "k") none
        [.response 500 (.obj [("detail", .str "boom")]),
         .response 500 (.obj [("detail", .str "boom")]),
         .response 200 (.obj [("id", .str "i"), ("state", .str "done")])]).output
        = upscaleRender [("generation_id", .str "g"), ("resolution", .str "720p")]
            (.obj [("id", .str "i"), ("state", .str "done")]))
    ∧ ((upscale_generation [("generation_id", .str "g"), ("resolution", .str "720p")]
        (some "k") none
        [.response 400 (.obj [("detail",
          .str "requested resolution is the same resolution as the original")])]).attempts = 1
      ∧ (upscale_generation [("generation_id", .str "g"), ("resolution", .str "720p")]
        (some "k") none
        [.response 400 (.obj [("detail",
          .str "requested resolution is the same resolution as the original")])]).sleeps = 0
      ∧ (upscale_generation [("generation_id", .str "g"), ("resolution", .str "720p")]
        (some "k") none
        [.response 400 (.obj [("detail",
          .str "requested resolution is the same resolution as the original")])]).output
        = "Error upscaling generation g: Cannot upscale to 720p because the original generation is already at this resolution. Please choose a higher resolution.") :=
  ⟨upscale_retry_behavior.1 (.obj [("detail", .str "boom")])
      (.obj [("detail", .str "boom")])
      (.obj [("id", .str "i"), ("state", .str "done")]) (by decide) (by decide),
   upscale_retry_behavior.2 400
      (.obj [("detail",
        .str "requested resolution is the same resolution as the original")])
      (by decide) (by decide)⟩

theorem list_generations_render (ak ek : Option String) (rs : List NetResult)
    (result : JSON) (gl : List JSON) (pg : Option String)
    (hcall : callResult ak ek rs = .ok result)
    (ht : result.isTruthy = true)
    (hext : extractGens result = .ok (gl, pg))
    (hne : gl.isEmpty = false) :
    (list_generations [] ak ek rs).output
      = String.intercalate "\n"
          (("Generations:" :: pg.toList) ++ gl.filterMap renderEntryIfObj) := by
  unfold list_generations
  rw [hcall]
  dsimp only []
  rw [ht]
  simp only [Bool.not_true, Bool.false_eq_true, if_false]
  rw [hext]
  dsimp only []
  rw [hne]
  simp only [Bool.false_eq_true, if_false]

/-- C5: list_generations accepts all four documented reply shapes — the
wrapped object (with pagination prepended), a bare list, a single object
carrying id and state (treated as a one-element list), and an object
nesting the list under data/results/items — renders every entry with the
same per-entry summary function regardless of shape, and skips entries
that are not objects. -/
theorem list_generations_shapes :
    ∀ (l : List JSON) (hm : Bool) (cnt : JSON) (g : List (String × JSON)),
      l ≠ [] →
      (lookupField g "id").isSome = true →
      (lookupField g "state").isSome = true →
      lookupField g "generations" = none →
      ((list_generations [] (some "k") none
          [.response 200 (.obj [("generations", .arr l), ("has_more", .bool hm),
            ("count", cnt)])]).output
        = String.intercalate "\n"
            (("Generations:" ::
              ["Showing " ++ toString l.length ++ " of " ++ cnt.display
                ++ " generations" ++ (if hm then " (more available)" else "")]) ++
             l.filterMap renderEntryIfObj))
      ∧ ((list_generations [] (some "k") none [.response 200 (.arr l)]).output
        = String.intercalate "\n" ("Generations:" :: l.filterMap renderEntryIfObj))
      ∧ (∀ key ∈ (["data", "results", "items"] : List String),
          (list_generations [] (some "k") none
            [.response 200 (.obj [(key, .arr l)])]).output
          = String.intercalate "\n" ("Generations:" :: l.filterMap renderEntryIfObj))
      ∧ ((list_generations [] (some "k") none [.response 200 (.obj g)]).output
        = String.intercalate "\n"
            ("Generations:" :: [JSON.obj g].filterMap renderEntryIfObj))
      ∧ (∀ (x : JSON) (xs : List JSON), x.isObj = false →
          List.filterMap renderEntryIfObj (x :: xs)
            = List.filterMap renderEntryIfObj xs) := by
  intro l hm cnt g hl hid hst hng
  have hle : l.isEmpty = false := by
    cases l with
    | nil => exact absurd rfl hl
    | cons a t => rfl
  refine ⟨?_, ?_, ?_, ?_, ?_⟩
  · exact list_generations_render _ _ _ _ l
      (some ("Showing " ++ toString l.length ++ " of " ++ cnt.display
        ++ " generations" ++ (if hm then " (more available)" else "")))
      rfl rfl rfl hle
  · refine list_generations_render _ _ _ _ l none rfl ?_ rfl hle
    show (!l.isEmpty) = true
    rw [hle]
    rfl
  · intro key hkey
    cases l with
    | nil => exact absurd rfl hl
    | cons a t =>
      simp only [List.mem_cons, List.not_mem_nil, or_false] at hkey
      rcases hkey with rfl | rfl | rfl
      · exact list_generations_render _ _ _ _ (a :: t) none rfl rfl rfl rfl
      · exact list_generations_render _ _ _ _ (a :: t) none rfl rfl rfl rfl
      · exact list_generations_render _ _ _ _ (a :: t) none rfl rfl rfl rfl
  · have hgne : g ≠ [] := by
      intro he
      rw [he] at hid
      simp [lookupField] at hid
    have hgt : (JSON.obj g).isTruthy = true := by
      cases g with
      | nil => exact absurd rfl hgne
      | cons a t => rfl
    have hext : extractGens (.obj g) = .ok ([JSON.obj g], none) := by
      unfold extractGens
      dsimp only []
      rw [hng]
      dsimp only []
      rw [hid, hst]
      rfl
    exact list_generations_render _ _ _ _ [JSON.obj g] none rfl hgt hext rfl
  · intro x xs hx
    have hnone : renderEntryIfObj x = none := by
      cases x with
      | obj fs => simp [JSON.isObj] at hx
      | null => rfl
      | bool b => rfl
      | num t => rfl
      | str s => rfl
      | arr ys => rfl
    simp [List.filterMap_cons, hnone]

/-- Witness for C5: the bare-list shape at a concrete one-element list
renders the shared per-entry summary. -/
theorem list_generations_shapes_witness :
    (list_generations [] (some "k") none
        [.response 200 (.arr [JSON.obj [("id", JSON.str "a"),
          ("state", JSON.str "done")]])]).output
      = String.intercalate "\n" ("Generations:" ::
          [JSON.obj [("id", JSON.str "a"),
            ("state", JSON.str "done")]].filterMap renderEntryIfObj) :=
  (list_generations_shapes [JSON.obj [("id", JSON.str "a"), ("state", JSON.str "done")]]
      true (.num "1") [("id", JSON.str "a"), ("state", JSON.str "done")]
      (List.cons_ne_nil _ _) rfl rfl rfl).2.1
